import Mathlib

/-!
Verification development for the MotionWeaver backend
(comic-drama production pipeline).

Shallow embedding of:
- backend/app/models/project.py (ProjectStatus, VALID_TRANSITIONS, can_transition_to)
- backend/app/models/episode.py (EpisodeStatus, EPISODE_VALID_TRANSITIONS, can_transition_to)
- backend/app/models/scene.py (SceneStatus enum, Scene columns)
- backend/app/main.py (_recover_stuck_scenes)
- backend/app/tasks/asset_tasks.py (_mark_scene_error, generate_scene_image,
  generate_scene_video)
- backend/app/tasks/pipeline_callbacks.py (mark_scene_reviewable)
- backend/app/tasks/quick_draft_task.py (image/video steps)
- backend/app/api/assets.py (approve_scene_and_generate_video, batch_approve)
- backend/app/api/story.py (extract_episodes_and_generate_scripts, step 4)
- backend/app/services/base_gen_service.py (BaseGenService.execute)
- backend/app/services/llm_client.py (llm_call, _next_key)

Python enums are embedded as Lean inductives together with an explicit
member-name table, because Python attribute access SceneStatus.X raises
AttributeError when X is not a declared member — that behaviour matters here.
Wall-clock sleeps and log lines are recorded as events in an explicit trace.
-/

/-! ## Project state machine (backend/app/models/project.py) -/

inductive ProjectStatus
  | DRAFT
  | OUTLINE_REVIEW
  | SCRIPT_REVIEW
  | STORYBOARD
  | PRODUCTION
  | COMPOSING
  | COMPLETED
deriving DecidableEq, Repr, Fintype

/-- The string value of each ProjectStatus member (Python str-enum values). -/
def ProjectStatus.value : ProjectStatus → String
  | .DRAFT => "DRAFT"
  | .OUTLINE_REVIEW => "OUTLINE_REVIEW"
  | .SCRIPT_REVIEW => "SCRIPT_REVIEW"
  | .STORYBOARD => "STORYBOARD"
  | .PRODUCTION => "PRODUCTION"
  | .COMPOSING => "COMPOSING"
  | .COMPLETED => "COMPLETED"

/-- _STATUS_ORDER = list(ProjectStatus): declaration order of the enum. -/
def projectStatusOrder : List ProjectStatus :=
  [.DRAFT, .OUTLINE_REVIEW, .SCRIPT_REVIEW, .STORYBOARD, .PRODUCTION, .COMPOSING, .COMPLETED]

/-- ProjectStatus(s): value-based enum lookup; ValueError is modelled as none. -/
def projectStatusOfValue (s : String) : Option ProjectStatus :=
  projectStatusOrder.find? (fun p => p.value = s)

/-- VALID_TRANSITIONS: explicit adjacency table, status -> reachable statuses. -/
def VALID_TRANSITIONS : ProjectStatus → List ProjectStatus
  | .DRAFT => [.OUTLINE_REVIEW]
  | .OUTLINE_REVIEW => [.SCRIPT_REVIEW, .DRAFT]
  | .SCRIPT_REVIEW => [.STORYBOARD, .OUTLINE_REVIEW]
  | .STORYBOARD => [.PRODUCTION, .SCRIPT_REVIEW]
  | .PRODUCTION => [.COMPOSING, .STORYBOARD]
  | .COMPOSING => [.COMPLETED, .PRODUCTION]
  | .COMPLETED => []

/-- Index of a status in _STATUS_ORDER (used by Project.is_rollback). -/
def ProjectStatus.idx (s : ProjectStatus) : Nat :=
  projectStatusOrder.indexOf s

/-- Project row: only the status column matters for the embedded methods. -/
structure Project where
  status : String
deriving DecidableEq, Repr

/-- Project.can_transition_to: parse both statuses (ValueError -> False), then
membership in the adjacency table. -/
def Project.canTransitionTo (p : Project) (targetStatus : String) : Bool :=
  match projectStatusOfValue p.status, projectStatusOfValue targetStatus with
  | some current, some target => (VALID_TRANSITIONS current).contains target
  | _, _ => false

/-! ## Episode state machine (backend/app/models/episode.py) -/

inductive EpisodeStatus
  | SCRIPT_GENERATING
  | SCRIPT_REVIEW
  | STORYBOARD
  | PRODUCTION
  | COMPOSING
  | COMPLETED
deriving DecidableEq, Repr, Fintype

def EpisodeStatus.value : EpisodeStatus → String
  | .SCRIPT_GENERATING => "SCRIPT_GENERATING"
  | .SCRIPT_REVIEW => "SCRIPT_REVIEW"
  | .STORYBOARD => "STORYBOARD"
  | .PRODUCTION => "PRODUCTION"
  | .COMPOSING => "COMPOSING"
  | .COMPLETED => "COMPLETED"

def episodeStatusOrder : List EpisodeStatus :=
  [.SCRIPT_GENERATING, .SCRIPT_REVIEW, .STORYBOARD, .PRODUCTION, .COMPOSING, .COMPLETED]

def episodeStatusOfValue (s : String) : Option EpisodeStatus :=
  episodeStatusOrder.find? (fun p => p.value = s)

/-- EPISODE_VALID_TRANSITIONS: explicit adjacency table for episode status. -/
def EPISODE_VALID_TRANSITIONS : EpisodeStatus → List EpisodeStatus
  | .SCRIPT_GENERATING => [.SCRIPT_REVIEW]
  | .SCRIPT_REVIEW => [.STORYBOARD, .SCRIPT_GENERATING]
  | .STORYBOARD => [.PRODUCTION, .SCRIPT_REVIEW]
  | .PRODUCTION => [.COMPOSING, .STORYBOARD]
  | .COMPOSING => [.COMPLETED, .PRODUCTION]
  | .COMPLETED => [.SCRIPT_REVIEW, .COMPOSING]

def EpisodeStatus.idx (s : EpisodeStatus) : Nat :=
  episodeStatusOrder.indexOf s

structure Episode where
  status : String
deriving DecidableEq, Repr

/-- Episode.can_transition_to. -/
def Episode.canTransitionTo (e : Episode) (targetStatus : String) : Bool :=
  match episodeStatusOfValue e.status, episodeStatusOfValue targetStatus with
  | some current, some target => (EPISODE_VALID_TRANSITIONS current).contains target
  | _, _ => false

/-! ## Scene model (backend/app/models/scene.py) -/

/-- SceneStatus members as (name, value) pairs. A Python str-enum: attribute
access SceneStatus.NAME is a lookup in this member table and raises
AttributeError when the name is not declared. There is no ERROR member. -/
def sceneStatusMembers : List (String × String) :=
  [("PENDING", "PENDING"), ("GENERATING", "GENERATING"), ("REVIEW", "REVIEW"),
   ("APPROVED", "APPROVED"), ("VIDEO_GEN", "VIDEO_GEN"), ("READY", "READY")]

/-- SceneStatus.NAME.value; none models AttributeError. -/
def sceneStatusAttr (memberName : String) : Option String :=
  (sceneStatusMembers.find? (fun m => m.1 = memberName)).map (fun m => m.2)

/-- ProjectStatus members as (name, value) pairs; attribute access by name.
There is no IN_PRODUCTION member. -/
def projectStatusMembers : List (String × String) :=
  [("DRAFT", "DRAFT"), ("OUTLINE_REVIEW", "OUTLINE_REVIEW"),
   ("SCRIPT_REVIEW", "SCRIPT_REVIEW"), ("STORYBOARD", "STORYBOARD"),
   ("PRODUCTION", "PRODUCTION"), ("COMPOSING", "COMPOSING"),
   ("COMPLETED", "COMPLETED")]

/-- ProjectStatus.NAME.value; none models AttributeError. -/
def projectStatusAttr (memberName : String) : Option String :=
  (projectStatusMembers.find? (fun m => m.1 = memberName)).map (fun m => m.2)

/-- The mapped columns of the scenes table (Scene ORM model). Note that there
is no error_message column. -/
def sceneColumns : List String :=
  ["id", "project_id", "episode_id", "sequence_order", "dialogue_text",
   "prompt_visual", "prompt_motion", "sfx_text", "local_audio_path",
   "local_image_path", "local_video_path", "audio_duration", "video_duration",
   "status", "created_at", "updated_at"]

/-- Scene row: the columns the embedded operations read or write. -/
structure Scene where
  status : String
  sequenceOrder : Int := 0
  localAudioPath : Option String := none
  localImagePath : Option String := none
  localVideoPath : Option String := none
  dialogueText : Option String := none
  promptVisual : Option String := none
  promptMotion : Option String := none
  sfxText : Option String := none
  audioDuration : Option Rat := none
  videoDuration : Option Rat := none
deriving DecidableEq, Repr

/-- _mark_scene_error (tasks/asset_tasks.py): truncate the message to 500
characters, then update the scene with status=SceneStatus.ERROR.value and
error_message=truncated. The whole body runs inside try/except, so any
exception is logged and swallowed (the worker process does not crash).
Evaluating SceneStatus.ERROR raises AttributeError (no such member), so the
except branch is taken and the scene row is left untouched; even if the member
existed, scenes has no error_message column, so the UPDATE would itself fail. -/
def markSceneError (scene : Scene) (errorMsg : String) : Scene :=
  let _truncated := errorMsg.take 500
  match sceneStatusAttr "ERROR" with
  | none => scene
  | some v =>
      if "error_message" ∈ sceneColumns then { scene with status := v }
      else scene

/-! ## Startup crash recovery (_recover_stuck_scenes, backend/app/main.py) -/

/-- The fixed scene status-recovery table, in the order the UPDATEs run. -/
def sceneRecoveryTransitions : List (String × String) :=
  [("VIDEO_GEN", "REVIEW"), ("IMAGE_GEN", "PENDING"),
   ("AUDIO_GEN", "PENDING"), ("GENERATING", "PENDING")]

/-- UPDATE t SET status=:to_st WHERE status=:from_st over a table of rows,
keeping only the status column. -/
def sqlUpdateStatus (fromSt toSt : String) (rows : List String) : List String :=
  rows.map (fun s => if s = fromSt then toSt else s)

/-- The persisted store: status columns of the scenes, episodes and projects
tables. -/
structure Datastore where
  scenes : List String
  episodes : List String
  projects : List String
deriving DecidableEq, Repr

/-- _recover_stuck_scenes: runs the four scene UPDATEs in order, then
COMPOSING -> PRODUCTION on episodes and on projects. -/
def recoverStuckScenes (db : Datastore) : Datastore :=
  { scenes := sceneRecoveryTransitions.foldl
      (fun rows ft => sqlUpdateStatus ft.1 ft.2 rows) db.scenes
    episodes := sqlUpdateStatus "COMPOSING" "PRODUCTION" db.episodes
    projects := sqlUpdateStatus "COMPOSING" "PRODUCTION" db.projects }

/-- The per-row status map the spec's recovery table describes for scenes. -/
def sceneRecoveryMap (s : String) : String :=
  if s = "VIDEO_GEN" then "REVIEW"
  else if s = "IMAGE_GEN" ∨ s = "AUDIO_GEN" ∨ s = "GENERATING" then "PENDING"
  else s

/-- The per-row status map for episodes and projects. -/
def composeRecoveryMap (s : String) : String :=
  if s = "COMPOSING" then "PRODUCTION" else s

/-- Applying a list of (from, to) status rewrites in order to one status. -/
def applyStatusTransitions (ts : List (String × String)) (s : String) : String :=
  ts.foldl (fun acc ft => if acc = ft.1 then ft.2 else acc) s

/-! ## Episode-extraction endpoint, step 4 (backend/app/api/story.py) -/

/-- Python exceptions that escape the embedded endpoint code. -/
inductive PyExc
  | attributeError (missingMember : String)
deriving DecidableEq, Repr

/-- Step 4 of extract_episodes_and_generate_scripts: the line
project.status = ProjectStatus.IN_PRODUCTION.value, executed with no
can_transition_to check. Evaluating the missing member IN_PRODUCTION raises
AttributeError before any status is written. -/
def extractAndGenerateStep4 (p : Project) : Except PyExc Project :=
  match projectStatusAttr "IN_PRODUCTION" with
  | none => .error (.attributeError "IN_PRODUCTION")
  | some v => .ok { p with status := v }

/-! ## Chord callback and image task (pipeline_callbacks.py, asset_tasks.py) -/

/-- Result dict returned by an asset sub-task: scene_id plus the optional
"status" key ("error" on final failure). -/
structure TaskResult where
  sceneId : String
  status : Option String := none
deriving DecidableEq, Repr

/-- mark_scene_reviewable (tasks/pipeline_callbacks.py): chord callback over
the sibling sub-task results; if any result dict has status == "error" the
callback returns without touching the scene, otherwise it writes
status=SceneStatus.REVIEW.value. -/
def markSceneReviewable (results : List TaskResult) (scene : Scene) : Scene :=
  if results.any (fun r => r.status == some "error") then scene
  else { scene with status := "REVIEW" }

/-- Success path of generate_scene_image (tasks/asset_tasks.py): one UPDATE
writing local_image_path=rel_path AND status=SceneStatus.REVIEW.value, then
the result dict {scene_id, image_path} with no "status" key. It does not
consult the audio sibling task. -/
def generateSceneImageSuccess (scene : Scene) (sceneId relPath : String) :
    Scene × TaskResult :=
  ({ scene with localImagePath := some relPath, status := "REVIEW" },
   { sceneId := sceneId, status := none })

/-- Final-failure path of generate_scene_image: _mark_scene_error is invoked
and the task returns {scene_id, status: "error"}. -/
def generateSceneImageFinalFailure (scene : Scene) (sceneId exc : String) :
    Scene × TaskResult :=
  (markSceneError scene ("Image gen failed: " ++ exc),
   { sceneId := sceneId, status := some "error" })

/-! ## Scene approval / video-generation flow (api/assets.py, asset_tasks.py,
quick_draft_task.py, api/scenes.py, api/test_pipeline.py) -/

/-- SceneUpdate (schemas/scene.py): the PATCH body of update_scene. Every
field is optional; a field left out of the request is none here (the
exclude_unset distinction between an omitted field and an explicit null is
not modelled — only provided values are applied). The status field is
validated by pydantic against the SceneStatus enum, so only the six declared
values can arrive — but ANY of them, including APPROVED and VIDEO_GEN. -/
structure SceneUpdate where
  sequence_order : Option Int := none
  dialogue_text : Option String := none
  prompt_visual : Option String := none
  prompt_motion : Option String := none
  sfx_text : Option String := none
  status : Option String := none
deriving DecidableEq, Repr

/-- The body of update_scene (api/scenes.py): setattr(scene, key, value) for
every field present in the request, with no status guard of any kind. -/
def applySceneUpdate (upd : SceneUpdate) (sc : Scene) : Scene :=
  { sc with
    sequenceOrder := match upd.sequence_order with
      | some v => v
      | none => sc.sequenceOrder
    dialogueText := match upd.dialogue_text with
      | some v => some v
      | none => sc.dialogueText
    promptVisual := match upd.prompt_visual with
      | some v => some v
      | none => sc.promptVisual
    promptMotion := match upd.prompt_motion with
      | some v => some v
      | none => sc.promptMotion
    sfxText := match upd.sfx_text with
      | some v => some v
      | none => sc.sfxText
    status := match upd.status with
      | some v => v
      | none => sc.status }

/-- State of one scene's production flow: the scene row plus the Celery queue
and worker state of its generate_scene_video task. -/
structure SceneSys where
  scene : Scene
  videoQueued : Bool := false
  videoRunning : Bool := false
deriving DecidableEq, Repr

/-- One step of the scene flow, one constructor per code path that writes the
scene row or dispatches its video task: the approval endpoints, the asset and
video Celery tasks, the chord callback, the quick-draft steps, startup
recovery, the generic PATCH update_scene endpoint (which can write ANY
SceneStatus with no guard), and the legacy test-pipeline stage writes. -/
inductive SceneStep : SceneSys → SceneSys → Prop
  /-- approve_scene_and_generate_video (api/assets.py): rejects unless
  status == REVIEW and local_image_path is non-null; then writes APPROVED and
  enqueues generate_scene_video. -/
  | approveScene (s : SceneSys) (img : String)
      (hst : s.scene.status = "REVIEW")
      (himg : s.scene.localImagePath = some img) :
      SceneStep s { s with
                    scene := { s.scene with status := "APPROVED" }
                    videoQueued := true }
  /-- batch_approve (api/assets.py): per-scene guard identical to the single
  approval (skips scenes not in REVIEW or without an image). -/
  | batchApproveItem (s : SceneSys) (img : String)
      (hst : s.scene.status = "REVIEW")
      (himg : s.scene.localImagePath = some img) :
      SceneStep s { s with
                    scene := { s.scene with status := "APPROVED" }
                    videoQueued := true }
  /-- Dispatch of asset generation (api/assets.py): writes GENERATING before
  enqueueing the audio/image tasks. -/
  | startGeneration (s : SceneSys) :
      SceneStep s { s with scene := { s.scene with status := "GENERATING" } }
  /-- generate_scene_video (tasks/asset_tasks.py) picks up the queued task,
  acquires the per-scene lock and writes status=VIDEO_GEN. -/
  | videoTaskStart (s : SceneSys) (hq : s.videoQueued = true) :
      SceneStep s { s with
                    scene := { s.scene with status := "VIDEO_GEN" }
                    videoQueued := false
                    videoRunning := true }
  /-- generate_scene_video success: writes the video path, then READY. -/
  | videoTaskFinishOk (s : SceneSys) (p : String) (d : Rat)
      (hr : s.videoRunning = true) :
      SceneStep s { s with
                    scene := { s.scene with
                               status := "READY"
                               localVideoPath := some p
                               videoDuration := some d }
                    videoRunning := false }
  /-- generate_scene_video final failure: _mark_scene_error then return. -/
  | videoTaskFinishErr (s : SceneSys) (e : String) (hr : s.videoRunning = true) :
      SceneStep s { s with
                    scene := markSceneError s.scene e
                    videoRunning := false }
  /-- generate_scene_image success (writes image path and REVIEW directly). -/
  | imageTaskDone (s : SceneSys) (sid p : String) :
      SceneStep s { s with scene := (generateSceneImageSuccess s.scene sid p).1 }
  /-- generate_scene_audio success: writes audio path and duration only. -/
  | audioTaskDone (s : SceneSys) (p : String) (d : Rat) :
      SceneStep s { s with
                    scene := { s.scene with
                               localAudioPath := some p
                               audioDuration := some d } }
  /-- mark_scene_reviewable chord callback. -/
  | chordCallback (s : SceneSys) (results : List TaskResult) :
      SceneStep s { s with scene := markSceneReviewable results s.scene }
  /-- Quick-draft image step (tasks/quick_draft_task.py): if prompt_visual is
  set, writes local_image_path then status=APPROVED — with no check that the
  scene is in REVIEW. -/
  | quickDraftImage (s : SceneSys) (p pv : String)
      (hpv : s.scene.promptVisual = some pv) :
      SceneStep s { s with
                    scene := { s.scene with
                               localImagePath := some p
                               status := "APPROVED" } }
  /-- Quick-draft video step: if an image exists, writes local_video_path then
  READY (it never writes VIDEO_GEN and never uses the video task queue). -/
  | quickDraftVideo (s : SceneSys) (img p : String)
      (himg : s.scene.localImagePath = some img) :
      SceneStep s { s with
                    scene := { s.scene with
                               localVideoPath := some p
                               status := "READY" } }
  /-- Startup recovery applied to this scene row. -/
  | recovery (s : SceneSys) :
      SceneStep s { s with
                    scene := { s.scene with
                               status := sceneRecoveryMap s.scene.status } }
  /-- update_scene (api/scenes.py, PATCH): applies every provided field with
  no status guard; pydantic only requires a provided status to be one of the
  declared SceneStatus values. It never queues a video task. -/
  | updateScene (s : SceneSys) (upd : SceneUpdate)
      (hval : ∀ v, upd.status = some v → v ∈ sceneStatusMembers.map Prod.snd) :
      SceneStep s { s with scene := applySceneUpdate upd s.scene }
  /-- test_pipeline.py stage 4 image write: if prompt_visual is set and no
  image exists yet, writes the image path and the literal status
  WAITING_HUMAN_APPROVAL (a value outside the SceneStatus enum). -/
  | testPipelineImage (s : SceneSys) (p pv : String)
      (hpv : s.scene.promptVisual = some pv)
      (hni : s.scene.localImagePath = none) :
      SceneStep s { s with
                    scene := { s.scene with
                               localImagePath := some p
                               status := "WAITING_HUMAN_APPROVAL" } }
  /-- test_pipeline.py stage 5 video write: if an image exists and no video
  yet, calls generate_video directly (no Celery task, no VIDEO_GEN status,
  no lock) and writes the video path and READY. -/
  | testPipelineVideo (s : SceneSys) (img p : String)
      (himg : s.scene.localImagePath = some img)
      (hnv : s.scene.localVideoPath = none) :
      SceneStep s { s with
                    scene := { s.scene with
                               localVideoPath := some p
                               status := "READY" } }

/-! ## Generation service base (backend/app/services/base_gen_service.py)

BaseGenService.execute is embedded with the generation oracle
gen : Nat -> Except String T giving the outcome of the attempt with that
0-based index (a timeout from asyncio.wait_for is just another exception
here), and the fallback behaviour as an explicit three-way datum matching the
three except-branches of the code. Wall-clock latency and the cost/metrics
counters are bookkeeping not touched by the claims and are omitted; sleeps and
the fallback-failure log line are recorded as events. -/

structure GenServiceConfig where
  maxRetries : Nat := 3
  retryDelay : Rat := 2
  timeout : Rat := 180
  fallbackEnabled : Bool := true
deriving DecidableEq, Repr

/-- GenResult: the fields of the standardized generation result that the
claims mention. -/
structure GenResult (T : Type) where
  data : T
  provider : String
  retriesUsed : Nat
  fallbackUsed : Bool := false
deriving DecidableEq, Repr

inductive ExecEvent
  /-- A call into _generate (0-based attempt index). -/
  | attemptCall (n : Nat)
  /-- await asyncio.sleep(retry_delay * (attempt + 1)) between attempts. -/
  | sleepFor (seconds : Rat)
  /-- A call into _fallback. -/
  | fallbackCall
  /-- logger.error in the except-Exception branch of the fallback. -/
  | logFallbackFailed (err : String)
deriving DecidableEq, Repr

/-- The three possible behaviours of _fallback: the default raises
NotImplementedError (caught by its own distinct except branch), an overridden
fallback may raise some other exception, or succeed. -/
inductive FallbackBehavior (T : Type)
  | notImplemented
  | fails (err : String)
  | succeeds (v : T)
deriving DecidableEq, Repr

inductive ExecOutcome (T : Type)
  | ok (r : GenResult T)
  /-- raise RuntimeError(f"{name} failed after {max_retries} retries: {last_error}") -/
  | runtimeError (serviceName : String) (maxRetries : Nat) (lastError : String)
deriving DecidableEq, Repr

/-- The retry loop of execute: for attempt in range(max_retries + 1), try
_generate; on success return (value, attempt); on failure sleep
retry_delay * (attempt + 1) unless this was the last attempt, in which case
the last error is kept for the final raise. remaining = attempts left after
this one. -/
def runAttempts (gen : Nat → Except String T) (retryDelay : Rat) :
    Nat → Nat → List ExecEvent × Except String (T × Nat)
  | attempt, 0 =>
      (match gen attempt with
       | .ok v => ([.attemptCall attempt], .ok (v, attempt))
       | .error e => ([.attemptCall attempt], .error e))
  | attempt, r + 1 =>
      (match gen attempt with
       | .ok v => ([.attemptCall attempt], .ok (v, attempt))
       | .error _ =>
          let rest := runAttempts gen retryDelay (attempt + 1) r
          (.attemptCall attempt
             :: .sleepFor (retryDelay * ((attempt : Rat) + 1)) :: rest.1,
           rest.2))

/-- BaseGenService.execute: the retry loop, then on exhaustion the fallback if
enabled (NotImplementedError passes silently, any other fallback exception is
logged), and finally RuntimeError wrapping last_error — which is the last
_generate error, never the fallback's. -/
def BaseGenService.execute (cfg : GenServiceConfig) (serviceName : String)
    (gen : Nat → Except String T) (fb : FallbackBehavior T) :
    List ExecEvent × ExecOutcome T :=
  match runAttempts gen cfg.retryDelay 0 cfg.maxRetries with
  | (evs, .ok (v, attempt)) =>
      (evs, .ok { data := v, provider := serviceName, retriesUsed := attempt })
  | (evs, .error lastError) =>
      if cfg.fallbackEnabled then
        match fb with
        | .succeeds v =>
            (evs ++ [.fallbackCall],
             .ok { data := v, provider := serviceName ++ "_fallback",
                   retriesUsed := cfg.maxRetries, fallbackUsed := true })
        | .notImplemented =>
            (evs ++ [.fallbackCall],
             .runtimeError serviceName cfg.maxRetries lastError)
        | .fails fbErr =>
            (evs ++ [.fallbackCall, .logFallbackFailed fbErr],
             .runtimeError serviceName cfg.maxRetries lastError)
      else (evs, .runtimeError serviceName cfg.maxRetries lastError)

/-- The expected trace of a full run of the retry loop: attempts interleaved
with linear-backoff sleeps of retry_delay * attempt_number. -/
def linearBackoffTrace (retryDelay : Rat) : Nat → Nat → List ExecEvent
  | attempt, 0 => [.attemptCall attempt]
  | attempt, r + 1 =>
      .attemptCall attempt :: .sleepFor (retryDelay * ((attempt : Rat) + 1))
        :: linearBackoffTrace retryDelay (attempt + 1) r

def ExecEvent.isAttemptCall : ExecEvent → Bool
  | .attemptCall _ => true
  | _ => false

def ExecEvent.isFallbackCall : ExecEvent → Bool
  | .fallbackCall => true
  | _ => false

/-! ## LLM client (backend/app/services/llm_client.py)

llm_call is embedded with the response oracle
responses : Nat -> HttpOutcome giving what the HTTP POST of the attempt with
that 1-based number produces. The module-global key pool, itertools.cycle
position and per-key failure dict are threaded as explicit state. Key
rotations, key-failure marks and backoff sleeps are recorded as events. -/

/-- _KEY_POOL, the cycle position of _key_cycle, and _key_failures. -/
structure KeyPoolState where
  pool : List String
  pos : Nat
  failures : List (String × Nat)
deriving DecidableEq, Repr

/-- _key_failures.get(key, 0). -/
def getFailures (failures : List (String × Nat)) (k : String) : Nat :=
  match failures.find? (fun e => e.1 = k) with
  | some e => e.2
  | none => 0

/-- _key_failures[key] = n (dict assignment creates the key when absent). -/
def setFailures (failures : List (String × Nat)) (k : String) (n : Nat) :
    List (String × Nat) :=
  if failures.any (fun e => e.1 = k) then
    failures.map (fun e => if e.1 = k then (k, n) else e)
  else failures ++ [(k, n)]

/-- next(_key_cycle): the key at the cycle position, advancing the position;
the cycle is None (here: no key can be produced) iff the pool is empty. -/
def cycleNext (st : KeyPoolState) : Option (String × KeyPoolState) :=
  if st.pool = [] then none
  else some (st.pool.getD (st.pos % st.pool.length) "",
             { st with pos := st.pos + 1 })

/-- The for-loop inside _next_key: up to len(pool) draws, skipping keys with
>= 3 failures; also returns the state after the draws when no key qualified. -/
def nextKeyLoop : Nat → KeyPoolState → Option (String × KeyPoolState) × KeyPoolState
  | 0, st => (none, st)
  | n + 1, st =>
      match cycleNext st with
      | none => (none, st)
      | some (k, st1) =>
          if getFailures st1.failures k < 3 then (some (k, st1), st1)
          else nextKeyLoop n st1

/-- _next_key: raise RuntimeError if there are no keys (none); otherwise
round-robin skipping keys with >= 3 consecutive failures; if every key is
over the threshold, reset all counters and return the next key anyway. -/
def nextKey (st : KeyPoolState) : Option (String × KeyPoolState) :=
  if st.pool = [] then none
  else
    match nextKeyLoop st.pool.length st with
    | (some r, _) => some r
    | (none, st1) =>
        let st2 : KeyPoolState :=
          { st1 with failures := st1.failures.map (fun e => (e.1, 0)) }
        cycleNext st2

/-- _RETRIABLE_STATUS = {408, 429, 500, 502, 503, 504}. -/
def RETRIABLE_STATUS : List Nat := [408, 429, 500, 502, 503, 504]

/-- What one HTTP POST inside llm_call produces: a successful body, a non-2xx
HTTP status code, or httpx.TimeoutException. -/
inductive HttpOutcome
  | ok (content : String)
  | httpStatus (code : Nat)
  | timeout
deriving DecidableEq, Repr

inductive LLMEvent
  /-- The key returned by the per-attempt _next_key() call. -/
  | keyRotated (k : String)
  /-- _key_failures[key] += 1 in the 401 branch (with the new count). -/
  | markKeyFailed (k : String) (count : Nat)
  /-- await asyncio.sleep(backoff). -/
  | backoffSleep (seconds : Nat)
deriving DecidableEq, Repr

inductive LLMOutcome
  /-- The returned content string. -/
  | content (s : String)
  /-- raise LLMError(..., status_code, retriable). -/
  | raisedLLMError (statusCode : Nat) (retriable : Bool)
  /-- raise RuntimeError("No OpenRouter API keys configured"). -/
  | raisedNoKeys
deriving DecidableEq, Repr

/-- The retry loop of llm_call: for attempt in range(1, max_retries + 1);
remaining counts the iterations left; lastError carries (status_code,
retriable) of the stored LLMError. On 401 the key is marked failed and the
loop continues immediately with no sleep; on a retriable status or timeout
the loop sleeps min(2 ** attempt, 30) and continues; any other status raises
a non-retriable LLMError; each iteration starts with a fresh _next_key(). -/
def llmLoop (responses : Nat → HttpOutcome) :
    Nat → Nat → KeyPoolState → Option (Nat × Bool) → List LLMEvent × LLMOutcome
  | _attempt, 0, _st, lastError =>
      ([], match lastError with
           | some (code, retriable) => .raisedLLMError code retriable
           | none => .raisedLLMError 0 false)
  | attempt, r + 1, st, _lastError =>
      match nextKey st with
      | none => ([], .raisedNoKeys)
      | some (key, st1) =>
          match responses attempt with
          | .ok c => ([.keyRotated key], .content c)
          | .timeout =>
              let backoff := min (2 ^ attempt) 30
              let rest := llmLoop responses (attempt + 1) r st1 (some (408, true))
              (.keyRotated key :: .backoffSleep backoff :: rest.1, rest.2)
          | .httpStatus code =>
              if code = 401 then
                let n := getFailures st1.failures key + 1
                let rest := llmLoop responses (attempt + 1) r
                    { st1 with failures := setFailures st1.failures key n }
                    (some (401, true))
                (.keyRotated key :: .markKeyFailed key n :: rest.1, rest.2)
              else if code ∈ RETRIABLE_STATUS then
                let backoff := min (2 ^ attempt) 30
                let rest := llmLoop responses (attempt + 1) r st1 (some (code, true))
                (.keyRotated key :: .backoffSleep backoff :: rest.1, rest.2)
              else
                ([.keyRotated key], .raisedLLMError code false)

/-- llm_call: run the loop with attempts numbered from 1. -/
def llmCall (responses : Nat → HttpOutcome) (maxRetries : Nat)
    (st : KeyPoolState) : List LLMEvent × LLMOutcome :=
  llmLoop responses 1 maxRetries st none

def LLMEvent.sleepSeconds : LLMEvent → Option Nat
  | .backoffSleep d => some d
  | _ => none

def LLMEvent.isMarkKeyFailed : LLMEvent → Bool
  | .markKeyFailed _ _ => true
  | _ => false

/-- Whether a response belongs to the backoff class of the claim: a retriable
HTTP status (408/429/500/502/503/504) or a network timeout. -/
def HttpOutcome.isBackoffClass : HttpOutcome → Bool
  | .timeout => true
  | .httpStatus code => decide (code ∈ RETRIABLE_STATUS)
  | .ok _ => false

/-- The backoff sleeps the claim predicts for the attempts the loop runs: no
sleep for a 401 attempt, exactly min(2 ^ attempt, 30) for a retriable-status
or timeout attempt, stopping at success or a non-retriable status. -/
def expectedBackoffs (responses : Nat → HttpOutcome) : Nat → Nat → List Nat
  | _attempt, 0 => []
  | attempt, r + 1 =>
      match responses attempt with
      | .ok _ => []
      | .timeout =>
          min (2 ^ attempt) 30 :: expectedBackoffs responses (attempt + 1) r
      | .httpStatus code =>
          if code = 401 then expectedBackoffs responses (attempt + 1) r
          else if code ∈ RETRIABLE_STATUS then
            min (2 ^ attempt) 30 :: expectedBackoffs responses (attempt + 1) r
          else []

/-- The number of key-failure marks the claim predicts: one per 401 attempt
among the attempts the loop runs. -/
def expectedKeyMarkCount (responses : Nat → HttpOutcome) : Nat → Nat → Nat
  | _attempt, 0 => 0
  | attempt, r + 1 =>
      match responses attempt with
      | .ok _ => 0
      | .timeout => expectedKeyMarkCount responses (attempt + 1) r
      | .httpStatus code =>
          if code = 401 then expectedKeyMarkCount responses (attempt + 1) r + 1
          else if code ∈ RETRIABLE_STATUS then
            expectedKeyMarkCount responses (attempt + 1) r
          else 0

/-! ## Theorems -/

/-- C4: Project.can_transition_to returns true exactly when the target is in the
adjacency-table entry for the current status, and false for every pair not in
the table — including all self-transitions, stage-skipping jumps such as
DRAFT -> PRODUCTION, and any current or target string that is not a valid
ProjectStatus value. -/
theorem C4_can_transition_matches_table :
    (∀ c t : ProjectStatus,
        (Project.mk c.value).canTransitionTo t.value = (VALID_TRANSITIONS c).contains t)
  ∧ (∀ cur tgt : String,
        projectStatusOfValue cur = none ∨ projectStatusOfValue tgt = none →
        (Project.mk cur).canTransitionTo tgt = false)
  ∧ (∀ c : ProjectStatus, (Project.mk c.value).canTransitionTo c.value = false)
  ∧ (Project.mk "DRAFT").canTransitionTo "PRODUCTION" = false := by
  refine ⟨by decide, ?_, by decide, by decide⟩
  intro cur tgt h
  unfold Project.canTransitionTo
  rcases h with h | h
  · rw [h]
  · rw [h]
    cases projectStatusOfValue cur <;> rfl

/-- Witness for C4: a string that is not a ProjectStatus value is rejected. -/
theorem C4_witness : (Project.mk "BOGUS").canTransitionTo "DRAFT" = false :=
  C4_can_transition_matches_table.2.1 "BOGUS" "DRAFT" (Or.inl (by decide))

/-- C9 counterexample: the Project table is NOT symmetric on every forward edge.
COMPOSING -> COMPLETED is a valid forward transition, but the one-step rollback
COMPLETED -> COMPOSING is not valid for a Project (COMPLETED is terminal: its
table entry is the empty set), so the claim as stated is false. -/
theorem C9_counterexample :
    ProjectStatus.COMPLETED ∈ VALID_TRANSITIONS .COMPOSING
  ∧ ProjectStatus.idx .COMPOSING < ProjectStatus.idx .COMPLETED
  ∧ ProjectStatus.COMPOSING ∉ VALID_TRANSITIONS .COMPLETED
  ∧ (Project.mk "COMPOSING").canTransitionTo "COMPLETED" = true
  ∧ (Project.mk "COMPLETED").canTransitionTo "COMPOSING" = false := by
  decide

/-- C9 amended: can_transition returns true on every table edge, and every
forward edge of the Project table has a valid one-step rollback EXCEPT
COMPOSING -> COMPLETED (Project COMPLETED is terminal); every forward edge of
the Episode table (including COMPOSING -> COMPLETED, via the Episode rollback
COMPLETED -> COMPOSING) has a valid one-step rollback. -/
theorem C9_forward_rollback_symmetry_amended :
    (∀ x y : ProjectStatus, y ∈ VALID_TRANSITIONS x →
        (Project.mk x.value).canTransitionTo y.value = true)
  ∧ (∀ x y : ProjectStatus, y ∈ VALID_TRANSITIONS x → x.idx < y.idx →
        (x = .COMPOSING ∧ y = .COMPLETED) ∨ x ∈ VALID_TRANSITIONS y)
  ∧ (∀ x y : EpisodeStatus, y ∈ EPISODE_VALID_TRANSITIONS x →
        (Episode.mk x.value).canTransitionTo y.value = true)
  ∧ (∀ x y : EpisodeStatus, y ∈ EPISODE_VALID_TRANSITIONS x → x.idx < y.idx →
        x ∈ EPISODE_VALID_TRANSITIONS y) := by
  refine ⟨by decide, by decide, by decide, by decide⟩

/-- Witness for C9 amended: the forward edge SCRIPT_REVIEW -> STORYBOARD has
STORYBOARD -> SCRIPT_REVIEW as its valid rollback. -/
theorem C9_witness :
    (ProjectStatus.SCRIPT_REVIEW = ProjectStatus.COMPOSING
        ∧ ProjectStatus.STORYBOARD = ProjectStatus.COMPLETED)
    ∨ ProjectStatus.SCRIPT_REVIEW ∈ VALID_TRANSITIONS .STORYBOARD :=
  C9_forward_rollback_symmetry_amended.2.1 .SCRIPT_REVIEW .STORYBOARD
    (by decide) (by decide)

/-- Folding the recovery UPDATEs over a cons splits into the head status and
the tail. -/
theorem statusFold_cons (ts : List (String × String)) (a : String) (l : List String) :
    ts.foldl (fun acc ft => sqlUpdateStatus ft.1 ft.2 acc) (a :: l)
      = applyStatusTransitions ts a
        :: ts.foldl (fun acc ft => sqlUpdateStatus ft.1 ft.2 acc) l := by
  induction ts generalizing a l with
  | nil => rfl
  | cons t ts ih =>
      simp only [List.foldl, sqlUpdateStatus, List.map, applyStatusTransitions] at ih ⊢
      exact ih (if a = t.1 then t.2 else a) (l.map fun s => if s = t.1 then t.2 else s)

/-- Pointwise, the four scene recovery UPDATEs realise sceneRecoveryMap. -/
theorem applyStatusTransitions_scene (s : String) :
    applyStatusTransitions sceneRecoveryTransitions s = sceneRecoveryMap s := by
  by_cases h1 : s = "VIDEO_GEN"
  · subst h1; rfl
  by_cases h2 : s = "IMAGE_GEN"
  · subst h2; rfl
  by_cases h3 : s = "AUDIO_GEN"
  · subst h3; rfl
  by_cases h4 : s = "GENERATING"
  · subst h4; rfl
  · simp [applyStatusTransitions, sceneRecoveryTransitions, sceneRecoveryMap,
      h1, h2, h3, h4]

/-- The scenes table after recovery is the original mapped elementwise. -/
theorem recover_scenes_eq_map (rows : List String) :
    sceneRecoveryTransitions.foldl (fun acc ft => sqlUpdateStatus ft.1 ft.2 acc) rows
      = rows.map sceneRecoveryMap := by
  induction rows with
  | nil => rfl
  | cons a l ih =>
      rw [statusFold_cons, applyStatusTransitions_scene, ih, List.map]

/-- sceneRecoveryMap is idempotent. -/
theorem sceneRecoveryMap_idem (s : String) :
    sceneRecoveryMap (sceneRecoveryMap s) = sceneRecoveryMap s := by
  by_cases h1 : s = "VIDEO_GEN"
  · subst h1; rfl
  by_cases h2 : s = "IMAGE_GEN"
  · subst h2; rfl
  by_cases h3 : s = "AUDIO_GEN"
  · subst h3; rfl
  by_cases h4 : s = "GENERATING"
  · subst h4; rfl
  · simp [sceneRecoveryMap, h1, h2, h3, h4]

/-- composeRecoveryMap is idempotent. -/
theorem composeRecoveryMap_idem (s : String) :
    composeRecoveryMap (composeRecoveryMap s) = composeRecoveryMap s := by
  by_cases h : s = "COMPOSING"
  · subst h; rfl
  · simp [composeRecoveryMap, h]

/-- C3: startup crash recovery rewrites every persisted entity in a transient
status to exactly its fixed mapped stable status (scenes: VIDEO_GEN -> REVIEW,
IMAGE_GEN -> PENDING, AUDIO_GEN -> PENDING, GENERATING -> PENDING; episodes
and projects: COMPOSING -> PRODUCTION), leaves every other entity unchanged,
and is idempotent: a second run produces no further changes. -/
theorem C3_recovery_maps_and_idempotent :
    (∀ db : Datastore,
        (recoverStuckScenes db).scenes = db.scenes.map sceneRecoveryMap
      ∧ (recoverStuckScenes db).episodes = db.episodes.map composeRecoveryMap
      ∧ (recoverStuckScenes db).projects = db.projects.map composeRecoveryMap)
  ∧ (sceneRecoveryMap "VIDEO_GEN" = "REVIEW"
      ∧ sceneRecoveryMap "IMAGE_GEN" = "PENDING"
      ∧ sceneRecoveryMap "AUDIO_GEN" = "PENDING"
      ∧ sceneRecoveryMap "GENERATING" = "PENDING"
      ∧ composeRecoveryMap "COMPOSING" = "PRODUCTION")
  ∧ (∀ s : String, s ≠ "VIDEO_GEN" → s ≠ "IMAGE_GEN" → s ≠ "AUDIO_GEN" →
        s ≠ "GENERATING" → sceneRecoveryMap s = s)
  ∧ (∀ s : String, s ≠ "COMPOSING" → composeRecoveryMap s = s)
  ∧ (∀ db : Datastore, recoverStuckScenes (recoverStuckScenes db) = recoverStuckScenes db) := by
  have hfields : ∀ db : Datastore,
      (recoverStuckScenes db).scenes = db.scenes.map sceneRecoveryMap
    ∧ (recoverStuckScenes db).episodes = db.episodes.map composeRecoveryMap
    ∧ (recoverStuckScenes db).projects = db.projects.map composeRecoveryMap := by
    intro db
    refine ⟨recover_scenes_eq_map db.scenes, rfl, rfl⟩
  refine ⟨hfields, by decide, ?_, ?_, ?_⟩
  · intro s h1 h2 h3 h4
    simp [sceneRecoveryMap, h1, h2, h3, h4]
  · intro s h
    simp [composeRecoveryMap, h]
  · intro db
    have hmk : ∀ a b : Datastore, a.scenes = b.scenes → a.episodes = b.episodes →
        a.projects = b.projects → a = b := by
      intro a b h1 h2 h3
      cases a; cases b; simp_all
    apply hmk
    · rw [(hfields _).1, (hfields _).1, List.map_map]
      exact congrArg (fun f => List.map f db.scenes)
        (funext fun s => sceneRecoveryMap_idem s)
    · rw [(hfields _).2.1, (hfields _).2.1, List.map_map]
      exact congrArg (fun f => List.map f db.episodes)
        (funext fun s => composeRecoveryMap_idem s)
    · rw [(hfields _).2.2, (hfields _).2.2, List.map_map]
      exact congrArg (fun f => List.map f db.projects)
        (funext fun s => composeRecoveryMap_idem s)

/-- Witness for C3: recovery on a store holding one entity in each transient
status yields exactly the mapped stable statuses, a non-transient status is
untouched, and a second run changes nothing. -/
theorem C3_witness :
    (recoverStuckScenes
        { scenes := ["VIDEO_GEN", "IMAGE_GEN", "AUDIO_GEN", "GENERATING", "READY"],
          episodes := ["COMPOSING"], projects := ["COMPOSING", "DRAFT"] }).scenes
      = ["VIDEO_GEN", "IMAGE_GEN", "AUDIO_GEN", "GENERATING", "READY"].map sceneRecoveryMap
  ∧ sceneRecoveryMap "READY" = "READY"
  ∧ recoverStuckScenes (recoverStuckScenes
        { scenes := ["VIDEO_GEN"], episodes := [], projects := [] })
      = recoverStuckScenes { scenes := ["VIDEO_GEN"], episodes := [], projects := [] } :=
  ⟨(C3_recovery_maps_and_idempotent.1 _).1,
   C3_recovery_maps_and_idempotent.2.2.1 "READY" (by decide) (by decide) (by decide) (by decide),
   C3_recovery_maps_and_idempotent.2.2.2.2 _⟩

/-- markSceneError can never modify the scene: evaluating SceneStatus.ERROR
raises AttributeError, which the function catches and logs. -/
theorem markSceneError_eq (scene : Scene) (msg : String) :
    markSceneError scene msg = scene := rfl

/-- sceneRecoveryMap never produces the transient status VIDEO_GEN. -/
theorem sceneRecoveryMap_ne_videoGen (s : String) :
    sceneRecoveryMap s ≠ "VIDEO_GEN" := by
  by_cases h1 : s = "VIDEO_GEN"
  · subst h1; decide
  by_cases h2 : s = "IMAGE_GEN"
  · subst h2; decide
  by_cases h3 : s = "AUDIO_GEN"
  · subst h3; decide
  by_cases h4 : s = "GENERATING"
  · subst h4; decide
  · simp [sceneRecoveryMap, h1, h2, h3, h4]

/-- Two Bool facts b = true and b = false contradict. -/
theorem bool_true_false_elim {b : Bool} {C : Prop}
    (h1 : b = true) (h2 : b = false) : C :=
  absurd h1 (by simp [h2])

/-- C2: the claim says a scene whose generation task exhausted its retries is
left in a terminal ERROR status with a truncated message. The code cannot do
this: SceneStatus has no ERROR member (so SceneStatus.ERROR.value raises
AttributeError inside _mark_scene_error's try/except, which swallows it — the
worker does not crash) and the scenes table has no error_message column. The
scene row is provably left completely unchanged by _mark_scene_error. -/
theorem C2_mark_scene_error_cannot_set_error :
    sceneStatusAttr "ERROR" = none
  ∧ "ERROR" ∉ sceneStatusMembers.map Prod.fst
  ∧ "error_message" ∉ sceneColumns
  ∧ ∀ (scene : Scene) (msg : String), markSceneError scene msg = scene := by
  exact ⟨rfl, by decide, by decide, fun scene msg => markSceneError_eq scene msg⟩

/-- C5: the claim says every operation mutating Project.status first checks
can_transition_to. Step 4 of extract_episodes_and_generate_scripts
(api/story.py) performs no such check and assigns
ProjectStatus.IN_PRODUCTION.value — a member that does not exist, so the
endpoint raises AttributeError there; moreover even the intended jump
OUTLINE_REVIEW -> PRODUCTION is not an edge of the adjacency table. -/
theorem C5_extract_and_generate_unchecked_mutation :
    projectStatusAttr "IN_PRODUCTION" = none
  ∧ "IN_PRODUCTION" ∉ projectStatusMembers.map Prod.fst
  ∧ (∀ p : Project,
        extractAndGenerateStep4 p = .error (.attributeError "IN_PRODUCTION"))
  ∧ (Project.mk "OUTLINE_REVIEW").canTransitionTo "PRODUCTION" = false := by
  exact ⟨rfl, by decide, fun p => rfl, by decide⟩

/-- C8 counterexample: a scene transitions to REVIEW without the chord join —
generate_scene_image writes status=REVIEW directly on image success, here on a
scene whose audio sub-task has produced nothing (local_audio_path is null). -/
theorem C8_counterexample :
    (generateSceneImageSuccess { status := "GENERATING" } "sc1" "img/sc1.png").1.status
      = "REVIEW"
  ∧ (generateSceneImageSuccess { status := "GENERATING" } "sc1" "img/sc1.png").1.localAudioPath
      = none
  ∧ ({ status := "GENERATING" } : Scene).status ≠ "REVIEW" := by
  exact ⟨rfl, rfl, by decide⟩

/-- C8 amended: the chord callback mark_scene_reviewable advances the scene to
REVIEW exactly when no sibling result reports status "error", and leaves the
scene unchanged when some sibling result is an error; however REVIEW is also
reachable without the join — generate_scene_image writes status=REVIEW
directly on image success, independent of the audio sibling. -/
theorem C8_chord_callback_amended (results : List TaskResult) (scene : Scene) :
    ((∃ r ∈ results, r.status = some "error") →
        markSceneReviewable results scene = scene)
  ∧ ((∀ r ∈ results, r.status ≠ some "error") →
        markSceneReviewable results scene = { scene with status := "REVIEW" })
  ∧ (∀ sid relPath, (generateSceneImageSuccess scene sid relPath).1.status = "REVIEW") := by
  refine ⟨?_, ?_, fun _ _ => rfl⟩
  · rintro ⟨r, hr, hst⟩
    unfold markSceneReviewable
    rw [if_pos]
    exact List.any_eq_true.mpr ⟨r, hr, beq_iff_eq.mpr hst⟩
  · intro h
    unfold markSceneReviewable
    rw [if_neg]
    intro hany
    rcases List.any_eq_true.mp hany with ⟨r, hr, hp⟩
    exact h r hr (eq_of_beq hp)

/-- Witness for C8 amended: with three sibling results of which one is a typed
error, the chord callback does not advance the scene. -/
theorem C8_witness :
    markSceneReviewable
      [{ sceneId := "a" }, { sceneId := "b", status := some "error" },
       { sceneId := "c" }]
      { status := "GENERATING" } = { status := "GENERATING" } :=
  (C8_chord_callback_amended _ _).1
    ⟨{ sceneId := "b", status := some "error" }, by decide, rfl⟩

/-- C1 counterexample: the claim fails on the code in both halves. The PATCH
update_scene endpoint writes status=VIDEO_GEN directly onto a PENDING scene —
no approval check, no queued video task — and the quick-draft task writes
APPROVED directly onto a scene that is not in REVIEW. -/
theorem C1_counterexample :
    SceneStep { scene := { status := "PENDING" } }
      { scene := { status := "VIDEO_GEN" } }
  ∧ ({ scene := { status := "PENDING" } } : SceneSys).videoQueued = false
  ∧ ({ scene := { status := "PENDING" } } : SceneSys).scene.status ≠ "REVIEW"
  ∧ SceneStep
      { scene := { status := "PENDING", promptVisual := some "a cat" } }
      { scene := { status := "APPROVED", promptVisual := some "a cat",
                   localImagePath := some "img/1.png" } } := by
  refine ⟨?_, rfl, by decide, ?_⟩
  · exact SceneStep.updateScene _ { status := some "VIDEO_GEN" }
      (fun v hv => by injection hv with h; rw [← h]; decide)
  · exact SceneStep.quickDraftImage _ "img/1.png" "a cat" rfl

/-- C1 amended: a video-generation task becomes queued only through an
approval action (single or batch) whose guard read status == REVIEW and a
non-null local_image_path and which wrote APPROVED. But the claimed gate is
not an invariant of the program: a step newly entering VIDEO_GEN is either
the start of a queued generate_scene_video task OR a PATCH to the generic
update_scene endpoint whose body carries status=VIDEO_GEN (no approval
check, no queued task); and APPROVED is not reachable only from REVIEW —
the quick-draft task and the same PATCH endpoint write APPROVED with no
REVIEW/image check. -/
theorem C1_video_gate_amended (s s' : SceneSys) (h : SceneStep s s') :
    (s'.videoQueued = true → s.videoQueued = false →
        s.scene.status = "REVIEW" ∧ s.scene.localImagePath ≠ none
          ∧ s'.scene.status = "APPROVED")
  ∧ (s'.scene.status = "VIDEO_GEN" → s.scene.status ≠ "VIDEO_GEN" →
        s.videoQueued = true
          ∨ ∃ upd : SceneUpdate, upd.status = some "VIDEO_GEN"
              ∧ s'.scene = applySceneUpdate upd s.scene) := by
  cases h with
  | approveScene img hst himg =>
      exact ⟨fun _ _ => ⟨hst, by simp [himg], rfl⟩,
             fun h1 _ => absurd (show "APPROVED" = "VIDEO_GEN" from h1) (by decide)⟩
  | batchApproveItem img hst himg =>
      exact ⟨fun _ _ => ⟨hst, by simp [himg], rfl⟩,
             fun h1 _ => absurd (show "APPROVED" = "VIDEO_GEN" from h1) (by decide)⟩
  | startGeneration =>
      exact ⟨fun h1 h2 => bool_true_false_elim (show s.videoQueued = true from h1) h2,
             fun h1 _ => absurd (show "GENERATING" = "VIDEO_GEN" from h1) (by decide)⟩
  | videoTaskStart hq =>
      exact ⟨fun h1 _ => Bool.noConfusion (show false = true from h1),
             fun _ _ => Or.inl hq⟩
  | videoTaskFinishOk p d hr =>
      exact ⟨fun h1 h2 => bool_true_false_elim (show s.videoQueued = true from h1) h2,
             fun h1 _ => absurd (show "READY" = "VIDEO_GEN" from h1) (by decide)⟩
  | videoTaskFinishErr e hr =>
      refine ⟨fun h1 h2 => bool_true_false_elim (show s.videoQueued = true from h1) h2,
              fun h1 h2 => ?_⟩
      have h1' : (markSceneError s.scene e).status = "VIDEO_GEN" := h1
      rw [markSceneError_eq] at h1'
      exact absurd h1' h2
  | imageTaskDone sid p =>
      exact ⟨fun h1 h2 => bool_true_false_elim (show s.videoQueued = true from h1) h2,
             fun h1 _ => absurd (show "REVIEW" = "VIDEO_GEN" from h1) (by decide)⟩
  | audioTaskDone p d =>
      exact ⟨fun h1 h2 => bool_true_false_elim (show s.videoQueued = true from h1) h2,
             fun h1 h2 => absurd (show s.scene.status = "VIDEO_GEN" from h1) h2⟩
  | chordCallback results =>
      refine ⟨fun h1 h2 => bool_true_false_elim (show s.videoQueued = true from h1) h2,
              fun h1 h2 => ?_⟩
      have h1' : (markSceneReviewable results s.scene).status = "VIDEO_GEN" := h1
      unfold markSceneReviewable at h1'
      by_cases hany : results.any (fun r => r.status == some "error") = true
      · rw [if_pos hany] at h1'
        exact absurd h1' h2
      · rw [if_neg hany] at h1'
        exact absurd (show "REVIEW" = "VIDEO_GEN" from h1') (by decide)
  | quickDraftImage p pv hpv =>
      exact ⟨fun h1 h2 => bool_true_false_elim (show s.videoQueued = true from h1) h2,
             fun h1 _ => absurd (show "APPROVED" = "VIDEO_GEN" from h1) (by decide)⟩
  | quickDraftVideo img p himg =>
      exact ⟨fun h1 h2 => bool_true_false_elim (show s.videoQueued = true from h1) h2,
             fun h1 _ => absurd (show "READY" = "VIDEO_GEN" from h1) (by decide)⟩
  | recovery =>
      exact ⟨fun h1 h2 => bool_true_false_elim (show s.videoQueued = true from h1) h2,
             fun h1 _ => absurd
               (show sceneRecoveryMap s.scene.status = "VIDEO_GEN" from h1)
               (sceneRecoveryMap_ne_videoGen s.scene.status)⟩
  | updateScene upd hval =>
      refine ⟨fun h1 h2 => bool_true_false_elim (show s.videoQueued = true from h1) h2,
              fun h1 h2 => ?_⟩
      have h1' : (match upd.status with
          | some v => v
          | none => s.scene.status) = "VIDEO_GEN" := h1
      cases hu : upd.status with
      | none =>
          rw [hu] at h1'
          exact absurd (show s.scene.status = "VIDEO_GEN" from h1') h2
      | some v =>
          rw [hu] at h1'
          have hv : v = "VIDEO_GEN" := h1'
          exact Or.inr ⟨upd, by rw [hu, hv], rfl⟩
  | testPipelineImage p pv hpv hni =>
      exact ⟨fun h1 h2 => bool_true_false_elim (show s.videoQueued = true from h1) h2,
             fun h1 _ => absurd
               (show "WAITING_HUMAN_APPROVAL" = "VIDEO_GEN" from h1) (by decide)⟩
  | testPipelineVideo img p himg hnv =>
      exact ⟨fun h1 h2 => bool_true_false_elim (show s.videoQueued = true from h1) h2,
             fun h1 _ => absurd (show "READY" = "VIDEO_GEN" from h1) (by decide)⟩

/-- Witness for C1 amended: applying the queue-guard property to a concrete
approval step of a scene in REVIEW with an image. -/
theorem C1_witness :
    ({ scene := { status := "REVIEW", localImagePath := some "img/1.png" } }
        : SceneSys).scene.status = "REVIEW"
  ∧ ({ scene := { status := "REVIEW", localImagePath := some "img/1.png" } }
        : SceneSys).scene.localImagePath ≠ none
  ∧ ({ scene := { status := "APPROVED", localImagePath := some "img/1.png" },
       videoQueued := true } : SceneSys).scene.status = "APPROVED" :=
  (C1_video_gate_amended
      { scene := { status := "REVIEW", localImagePath := some "img/1.png" } }
      { scene := { status := "APPROVED", localImagePath := some "img/1.png" },
        videoQueued := true }
      (SceneStep.approveScene _ "img/1.png" rfl rfl)).1 rfl rfl

/-- If every attempt before the last fails and the last succeeds, the retry
loop runs all attempts with linear-backoff sleeps and returns the success with
the last attempt index. -/
theorem runAttempts_last_ok {T : Type} (gen : Nat → Except String T) (d : Rat)
    (v : T) :
    ∀ (remaining attempt : Nat),
      (∀ i, i < remaining → ∃ e, gen (attempt + i) = .error e) →
      gen (attempt + remaining) = .ok v →
      runAttempts gen d attempt remaining
        = (linearBackoffTrace d attempt remaining, .ok (v, attempt + remaining)) := by
  intro remaining
  induction remaining with
  | zero =>
      intro attempt _ hok
      rw [Nat.add_zero] at hok
      unfold runAttempts linearBackoffTrace
      rw [hok, Nat.add_zero]
  | succ r ih =>
      intro attempt hfail hok
      obtain ⟨e, he⟩ := hfail 0 (Nat.succ_pos r)
      rw [Nat.add_zero] at he
      have hfail1 : ∀ i, i < r → ∃ e, gen (attempt + 1 + i) = .error e := by
        intro i hi
        have := hfail (i + 1) (by omega)
        rwa [show attempt + (i + 1) = attempt + 1 + i by omega] at this
      have hok1 : gen (attempt + 1 + r) = .ok v := by
        rwa [show attempt + (r + 1) = attempt + 1 + r by omega] at hok
      unfold runAttempts linearBackoffTrace
      rw [he, ih (attempt + 1) hfail1 hok1]
      rw [show attempt + 1 + r = attempt + (r + 1) by omega]

/-- If every attempt fails, the retry loop runs all attempts with
linear-backoff sleeps and keeps the LAST generate error. -/
theorem runAttempts_all_error {T : Type} (gen : Nat → Except String T) (d : Rat)
    (errFn : Nat → String) :
    ∀ (remaining attempt : Nat),
      (∀ i, i ≤ remaining → gen (attempt + i) = .error (errFn (attempt + i))) →
      runAttempts gen d attempt remaining
        = (linearBackoffTrace d attempt remaining,
           .error (errFn (attempt + remaining))) := by
  intro remaining
  induction remaining with
  | zero =>
      intro attempt hfail
      have he := hfail 0 (Nat.le_refl 0)
      rw [Nat.add_zero] at he
      unfold runAttempts linearBackoffTrace
      rw [he, Nat.add_zero]
  | succ r ih =>
      intro attempt hfail
      have he := hfail 0 (Nat.zero_le _)
      rw [Nat.add_zero] at he
      have hfail1 : ∀ i, i ≤ r → gen (attempt + 1 + i) = .error (errFn (attempt + 1 + i)) := by
        intro i hi
        have := hfail (i + 1) (by omega)
        rwa [show attempt + (i + 1) = attempt + 1 + i by omega] at this
      unfold runAttempts linearBackoffTrace
      rw [he, ih (attempt + 1) hfail1]
      rw [show attempt + 1 + r = attempt + (r + 1) by omega]

/-- The retry loop makes at most remaining + 1 generate attempts. -/
theorem runAttempts_attempts_le {T : Type} (gen : Nat → Except String T) (d : Rat) :
    ∀ (remaining attempt : Nat),
      ((runAttempts gen d attempt remaining).1.filter ExecEvent.isAttemptCall).length
        ≤ remaining + 1 := by
  intro remaining
  induction remaining with
  | zero =>
      intro attempt
      unfold runAttempts
      cases gen attempt <;> simp [ExecEvent.isAttemptCall]
  | succ r ih =>
      intro attempt
      unfold runAttempts
      cases gen attempt with
      | ok v => simp [ExecEvent.isAttemptCall]
      | error e =>
          simp only [List.filter, ExecEvent.isAttemptCall, List.length_cons]
          have := ih (attempt + 1)
          omega

/-- The linear-backoff trace never contains a fallback call. -/
theorem linearBackoffTrace_no_fallback (d : Rat) :
    ∀ (remaining attempt : Nat),
      ExecEvent.fallbackCall ∉ linearBackoffTrace d attempt remaining := by
  intro remaining
  induction remaining with
  | zero => intro attempt; simp [linearBackoffTrace]
  | succ r ih =>
      intro attempt
      simp only [linearBackoffTrace, List.mem_cons]
      push_neg
      exact ⟨by simp, by simp, ih (attempt + 1)⟩

/-- Filtering fallback calls out of the linear-backoff trace gives nothing. -/
theorem linearBackoffTrace_filter_fallback (d : Rat) :
    ∀ (remaining attempt : Nat),
      (linearBackoffTrace d attempt remaining).filter ExecEvent.isFallbackCall = [] := by
  intro remaining
  induction remaining with
  | zero => intro attempt; simp [linearBackoffTrace, ExecEvent.isFallbackCall]
  | succ r ih =>
      intro attempt
      simp only [linearBackoffTrace, List.filter, ExecEvent.isFallbackCall]
      exact ih (attempt + 1)

/-- C6: execute attempts _generate at most max_retries + 1 times, sleeping
retry_delay * attempt_number (linear backoff) between consecutive attempts;
when _generate fails exactly max_retries times and then succeeds, execute
returns success with retries_used == max_retries and fallback_used false,
without invoking the fallback. -/
theorem C6_execute_linear_retry {T : Type} (cfg : GenServiceConfig)
    (name : String) (gen : Nat → Except String T) (fb : FallbackBehavior T)
    (v : T)
    (hfail : ∀ i, i < cfg.maxRetries → ∃ e, gen i = .error e)
    (hok : gen cfg.maxRetries = .ok v) :
    BaseGenService.execute cfg name gen fb
      = (linearBackoffTrace cfg.retryDelay 0 cfg.maxRetries,
         .ok { data := v, provider := name, retriesUsed := cfg.maxRetries,
               fallbackUsed := false })
  ∧ ExecEvent.fallbackCall ∉ (BaseGenService.execute cfg name gen fb).1
  ∧ (∀ (gen2 : Nat → Except String T) (fb2 : FallbackBehavior T),
      ((BaseGenService.execute cfg name gen2 fb2).1.filter
          ExecEvent.isAttemptCall).length ≤ cfg.maxRetries + 1) := by
  have hfail0 : ∀ i, i < cfg.maxRetries → ∃ e, gen (0 + i) = .error e := by
    intro i hi
    rw [Nat.zero_add]
    exact hfail i hi
  have hok0 : gen (0 + cfg.maxRetries) = .ok v := by rwa [Nat.zero_add]
  have hrun := runAttempts_last_ok gen cfg.retryDelay v cfg.maxRetries 0 hfail0 hok0
  rw [Nat.zero_add] at hrun
  have hexec : BaseGenService.execute cfg name gen fb
      = (linearBackoffTrace cfg.retryDelay 0 cfg.maxRetries,
         .ok { data := v, provider := name, retriesUsed := cfg.maxRetries,
               fallbackUsed := false }) := by
    unfold BaseGenService.execute
    rw [hrun]
  refine ⟨hexec, ?_, ?_⟩
  · rw [hexec]
    exact linearBackoffTrace_no_fallback cfg.retryDelay cfg.maxRetries 0
  · intro gen2 fb2
    unfold BaseGenService.execute
    have hb := runAttempts_attempts_le gen2 cfg.retryDelay cfg.maxRetries 0
    rcases hr : runAttempts gen2 cfg.retryDelay 0 cfg.maxRetries with ⟨evs, res⟩
    rw [hr] at hb
    cases res with
    | ok p =>
        rcases p with ⟨v2, a2⟩
        exact hb
    | error e =>
        by_cases hen : cfg.fallbackEnabled
        · simp only [hen, if_true]
          cases fb2 <;>
            simpa [List.filter_append, ExecEvent.isAttemptCall] using hb
        · simp only [hen, if_false]
          exact hb

/-- Witness for C6: max_retries = 2, a generate failing twice then succeeding;
execute returns retries_used = 2 without fallback. -/
theorem C6_witness :
    BaseGenService.execute (T := Nat)
        { maxRetries := 2, retryDelay := 2, timeout := 180, fallbackEnabled := true }
        "svc" (fun i => if i < 2 then Except.error "boom" else Except.ok 37)
        .notImplemented
      = (linearBackoffTrace 2 0 2,
         .ok { data := 37, provider := "svc", retriesUsed := 2,
               fallbackUsed := false }) :=
  (C6_execute_linear_retry
      { maxRetries := 2, retryDelay := 2, timeout := 180, fallbackEnabled := true }
      "svc" (fun i => if i < 2 then Except.error "boom" else Except.ok 37)
      .notImplemented 37
      (fun i hi => ⟨"boom", by simp [show i < 2 from hi]⟩) rfl).1

/-- C7 counterexample: with generate and fallback both failing, the final
RuntimeError wraps the LAST GENERATE error ("generate boom"), not the
fallback's error ("fallback boom") — the fallback error is only logged. The
claim that the raised error surfaces the fallback's error is false. -/
theorem C7_counterexample :
    BaseGenService.execute (T := Nat)
        { maxRetries := 0, retryDelay := 2, timeout := 180, fallbackEnabled := true }
        "svc" (fun _ => Except.error "generate boom") (.fails "fallback boom")
      = ([.attemptCall 0, .fallbackCall, .logFallbackFailed "fallback boom"],
         .runtimeError "svc" 0 "generate boom")
  ∧ "generate boom" ≠ "fallback boom" := by
  exact ⟨rfl, by decide⟩

/-- C7 amended: when every _generate attempt fails and fallback is enabled,
execute invokes the fallback exactly once; a missing fallback
(NotImplementedError) is handled by its own distinct except branch and logs
nothing, while a failing fallback logs its error; but when both generate and
fallback fail, the raised RuntimeError wraps the LAST GENERATE error — the
fallback's error is logged, not surfaced in the raised error. -/
theorem C7_fallback_once_wraps_generate_error {T : Type} (cfg : GenServiceConfig)
    (name : String) (gen : Nat → Except String T) (errFn : Nat → String)
    (hfail : ∀ i, i ≤ cfg.maxRetries → gen i = .error (errFn i))
    (hfb : cfg.fallbackEnabled = true) :
    (∀ fb : FallbackBehavior T,
        ((BaseGenService.execute cfg name gen fb).1.filter
            ExecEvent.isFallbackCall).length = 1)
  ∧ (∀ f, BaseGenService.execute cfg name gen (.fails f)
        = (linearBackoffTrace cfg.retryDelay 0 cfg.maxRetries
             ++ [.fallbackCall, .logFallbackFailed f],
           .runtimeError name cfg.maxRetries (errFn cfg.maxRetries)))
  ∧ (BaseGenService.execute cfg name gen .notImplemented
        = (linearBackoffTrace cfg.retryDelay 0 cfg.maxRetries ++ [.fallbackCall],
           .runtimeError name cfg.maxRetries (errFn cfg.maxRetries)))
  ∧ (∀ v, BaseGenService.execute cfg name gen (.succeeds v)
        = (linearBackoffTrace cfg.retryDelay 0 cfg.maxRetries ++ [.fallbackCall],
           .ok { data := v, provider := name ++ "_fallback",
                 retriesUsed := cfg.maxRetries, fallbackUsed := true })) := by
  have hfail0 : ∀ i, i ≤ cfg.maxRetries →
      gen (0 + i) = .error (errFn (0 + i)) := by
    intro i hi
    rw [Nat.zero_add]
    exact hfail i hi
  have hrun := runAttempts_all_error gen cfg.retryDelay errFn cfg.maxRetries 0 hfail0
  rw [Nat.zero_add] at hrun
  have hfilter := linearBackoffTrace_filter_fallback cfg.retryDelay cfg.maxRetries 0
  refine ⟨?_, ?_, ?_, ?_⟩
  · intro fb
    unfold BaseGenService.execute
    rw [hrun]
    cases fb <;>
      simp [hfb, List.filter_append, hfilter, ExecEvent.isFallbackCall]
  · intro f
    unfold BaseGenService.execute
    rw [hrun]
    simp [hfb]
  · unfold BaseGenService.execute
    rw [hrun]
    simp [hfb]
  · intro v
    unfold BaseGenService.execute
    rw [hrun]
    simp [hfb]

/-- Witness for C7 amended: max_retries = 1, generate always failing with
"boom", fallback failing with "fberr"; execute raises wrapping "boom". -/
theorem C7_witness :
    BaseGenService.execute (T := Nat)
        { maxRetries := 1, retryDelay := 3, timeout := 180, fallbackEnabled := true }
        "svc" (fun _ => Except.error "boom") (.fails "fberr")
      = (linearBackoffTrace 3 0 1 ++ [.fallbackCall, .logFallbackFailed "fberr"],
         .runtimeError "svc" 1 "boom") :=
  (C7_fallback_once_wraps_generate_error
      { maxRetries := 1, retryDelay := 3, timeout := 180, fallbackEnabled := true }
      "svc" (fun _ => Except.error "boom") (fun _ => "boom")
      (fun _ _ => rfl) rfl).2.1 "fberr"

/-- cycleNext on a nonempty pool yields a key and preserves pool and
failures. -/
theorem cycleNext_some (st : KeyPoolState) (hp : st.pool ≠ []) :
    cycleNext st
      = some (st.pool.getD (st.pos % st.pool.length) "",
              { st with pos := st.pos + 1 }) := by
  unfold cycleNext
  rw [if_neg hp]

/-- Any successful cycleNext preserves the pool and the failure counters. -/
theorem cycleNext_pool (st : KeyPoolState) (k : String) (st1 : KeyPoolState)
    (h : cycleNext st = some (k, st1)) :
    st1.pool = st.pool ∧ st1.failures = st.failures := by
  unfold cycleNext at h
  by_cases hp : st.pool = []
  · rw [if_pos hp] at h
    exact Option.noConfusion h
  · rw [if_neg hp, Option.some_inj] at h
    have h2 : ({ st with pos := st.pos + 1 } : KeyPoolState) = st1 :=
      congrArg Prod.snd h
    rw [← h2]
    exact ⟨rfl, rfl⟩

/-- The _next_key loop preserves the pool, in both components. -/
theorem nextKeyLoop_pool (n : Nat) : ∀ st : KeyPoolState,
    (nextKeyLoop n st).2.pool = st.pool
  ∧ (∀ k st1, (nextKeyLoop n st).1 = some (k, st1) → st1.pool = st.pool) := by
  induction n with
  | zero =>
      intro st
      exact ⟨rfl, fun k st1 h => Option.noConfusion h⟩
  | succ m ih =>
      intro st
      unfold nextKeyLoop
      cases hc : cycleNext st with
      | none =>
          exact ⟨rfl, fun k st1 h => Option.noConfusion h⟩
      | some p =>
          rcases p with ⟨k0, st0⟩
          have hp0 := (cycleNext_pool st k0 st0 hc).1
          dsimp only
          by_cases hf : getFailures st0.failures k0 < 3
          · rw [if_pos hf]
            refine ⟨hp0, fun k st1 h => ?_⟩
            have h' : some (k0, st0) = some (k, st1) := h
            rw [Option.some_inj] at h'
            have h2 : st0 = st1 := congrArg Prod.snd h'
            rw [← h2]
            exact hp0
          · rw [if_neg hf]
            refine ⟨(ih st0).1.trans hp0, fun k st1 h => ?_⟩
            exact ((ih st0).2 k st1 h).trans hp0

/-- _next_key on a nonempty pool returns a key and a state with the same
pool. -/
theorem nextKey_spec (st : KeyPoolState) (hp : st.pool ≠ []) :
    ∃ k st1, nextKey st = some (k, st1) ∧ st1.pool = st.pool := by
  unfold nextKey
  rw [if_neg hp]
  rcases hl : nextKeyLoop st.pool.length st with ⟨res, stf⟩
  have hlp := nextKeyLoop_pool st.pool.length st
  rw [hl] at hlp
  cases res with
  | some r =>
      rcases r with ⟨k, st1⟩
      exact ⟨k, st1, rfl, hlp.2 k st1 rfl⟩
  | none =>
      have hst2 : ({ stf with failures := stf.failures.map (fun e => (e.1, 0)) }
          : KeyPoolState).pool = st.pool := hlp.1
      have hne : ({ stf with failures := stf.failures.map (fun e => (e.1, 0)) }
          : KeyPoolState).pool ≠ [] := by rw [hst2]; exact hp
      refine ⟨({ stf with failures := stf.failures.map (fun e => (e.1, 0)) }
          : KeyPoolState).pool.getD
            (({ stf with failures := stf.failures.map (fun e => (e.1, 0)) }
              : KeyPoolState).pos
              % ({ stf with failures := stf.failures.map (fun e => (e.1, 0)) }
                  : KeyPoolState).pool.length) "",
        { ({ stf with failures := stf.failures.map (fun e => (e.1, 0)) }
            : KeyPoolState) with pos := stf.pos + 1 }, ?_, hst2⟩
      show cycleNext ({ stf with failures := stf.failures.map (fun e => (e.1, 0)) }
          : KeyPoolState) = _
      rw [cycleNext_some _ hne]

/-- The backoff sleeps of the llm_call loop are exactly the predicted ones:
none for a 401 attempt, min(2 ^ attempt, 30) for a retriable-status or
timeout attempt. -/
theorem llmLoop_sleeps (responses : Nat → HttpOutcome) :
    ∀ (r attempt : Nat) (st : KeyPoolState) (le : Option (Nat × Bool)),
      st.pool ≠ [] →
      (llmLoop responses attempt r st le).1.filterMap LLMEvent.sleepSeconds
        = expectedBackoffs responses attempt r := by
  intro r
  induction r with
  | zero =>
      intro attempt st le _hp
      rfl
  | succ m ih =>
      intro attempt st le hp
      obtain ⟨k, st1, hk, hpool⟩ := nextKey_spec st hp
      unfold llmLoop
      rw [hk]
      dsimp only
      cases hresp : responses attempt with
      | ok c =>
          simp [expectedBackoffs, LLMEvent.sleepSeconds, hresp]
      | timeout =>
          have ih1 := ih (attempt + 1) st1 (some (408, true))
            (by rw [hpool]; exact hp)
          simp [expectedBackoffs, LLMEvent.sleepSeconds, hresp, ih1]
      | httpStatus code =>
          by_cases h401 : code = 401
          · subst h401
            have ih1 := ih (attempt + 1)
              { st1 with failures :=
                  setFailures st1.failures k (getFailures st1.failures k + 1) }
              (some (401, true))
              (by show st1.pool ≠ []; rw [hpool]; exact hp)
            simp [expectedBackoffs, LLMEvent.sleepSeconds, hresp, ih1]
          · by_cases hretr : code ∈ RETRIABLE_STATUS
            · have ih1 := ih (attempt + 1) st1 (some (code, true))
                (by rw [hpool]; exact hp)
              simp [expectedBackoffs, LLMEvent.sleepSeconds, hresp, h401, hretr, ih1]
            · simp [expectedBackoffs, LLMEvent.sleepSeconds, hresp, h401, hretr]

/-- The key-failure marks of the llm_call loop are exactly one per 401
attempt. -/
theorem llmLoop_marks (responses : Nat → HttpOutcome) :
    ∀ (r attempt : Nat) (st : KeyPoolState) (le : Option (Nat × Bool)),
      st.pool ≠ [] →
      ((llmLoop responses attempt r st le).1.filter LLMEvent.isMarkKeyFailed).length
        = expectedKeyMarkCount responses attempt r := by
  intro r
  induction r with
  | zero =>
      intro attempt st le _hp
      rfl
  | succ m ih =>
      intro attempt st le hp
      obtain ⟨k, st1, hk, hpool⟩ := nextKey_spec st hp
      unfold llmLoop
      rw [hk]
      dsimp only
      cases hresp : responses attempt with
      | ok c =>
          simp [expectedKeyMarkCount, LLMEvent.isMarkKeyFailed, hresp]
      | timeout =>
          have ih1 := ih (attempt + 1) st1 (some (408, true))
            (by rw [hpool]; exact hp)
          simp [expectedKeyMarkCount, LLMEvent.isMarkKeyFailed, hresp, ih1]
      | httpStatus code =>
          by_cases h401 : code = 401
          · subst h401
            have ih1 := ih (attempt + 1)
              { st1 with failures :=
                  setFailures st1.failures k (getFailures st1.failures k + 1) }
              (some (401, true))
              (by show st1.pool ≠ []; rw [hpool]; exact hp)
            simp [expectedKeyMarkCount, LLMEvent.isMarkKeyFailed, hresp, ih1]
          · by_cases hretr : code ∈ RETRIABLE_STATUS
            · have ih1 := ih (attempt + 1) st1 (some (code, true))
                (by rw [hpool]; exact hp)
              simp [expectedKeyMarkCount, LLMEvent.isMarkKeyFailed, hresp, h401, hretr, ih1]
            · simp [expectedKeyMarkCount, LLMEvent.isMarkKeyFailed, hresp, h401, hretr]

/-- C10: in llm_call the delay before the next attempt depends on the error
class. Whole-run: the list of backoff sleeps equals the predicted list — a
401 attempt contributes NO sleep (the key is marked failed and the loop
rotates immediately), a retriable status (408/429/500/502/503/504) or timeout
contributes exactly min(2 ^ attempt, 30) — and the number of key-failure
marks equals the number of 401 attempts. Per-iteration: a 401 iteration
begins [rotate key, mark key failed] with no sleep, and a retriable/timeout
iteration begins [rotate key, sleep min(2 ^ attempt, 30)]; each iteration
starts with a fresh _next_key rotation. -/
theorem C10_llm_backoff_per_error_class (responses : Nat → HttpOutcome)
    (maxRetries : Nat) (st : KeyPoolState) (hp : st.pool ≠ []) :
    (llmCall responses maxRetries st).1.filterMap LLMEvent.sleepSeconds
      = expectedBackoffs responses 1 maxRetries
  ∧ ((llmCall responses maxRetries st).1.filter LLMEvent.isMarkKeyFailed).length
      = expectedKeyMarkCount responses 1 maxRetries
  ∧ (∀ (attempt r : Nat) (le : Option (Nat × Bool)) (st2 : KeyPoolState)
        (k : String) (st3 : KeyPoolState), nextKey st2 = some (k, st3) →
      (responses attempt = .httpStatus 401 →
        (llmLoop responses attempt (r + 1) st2 le).1.take 2
          = [.keyRotated k, .markKeyFailed k (getFailures st3.failures k + 1)])
    ∧ ((responses attempt).isBackoffClass = true →
        (llmLoop responses attempt (r + 1) st2 le).1.take 2
          = [.keyRotated k, .backoffSleep (min (2 ^ attempt) 30)])) := by
  refine ⟨llmLoop_sleeps responses maxRetries 1 st none hp,
          llmLoop_marks responses maxRetries 1 st none hp, ?_⟩
  intro attempt r le st2 k st3 hk
  constructor
  · intro h401
    unfold llmLoop
    rw [hk, h401]
    dsimp only
    rw [if_pos rfl]
    rfl
  · intro hb
    cases hresp : responses attempt with
    | ok c =>
        rw [hresp] at hb
        exact Bool.noConfusion hb
    | timeout =>
        unfold llmLoop
        rw [hk, hresp]
        rfl
    | httpStatus code =>
        rw [hresp] at hb
        have hmem : code ∈ RETRIABLE_STATUS := of_decide_eq_true hb
        have h401 : code ≠ 401 := by
          intro h
          subst h
          exact absurd hmem (by decide)
        unfold llmLoop
        rw [hk, hresp]
        dsimp only
        rw [if_neg h401, if_pos hmem]
        rfl

/-- Witness for C10: a 401 on attempt 1 (no sleep), a 429 on attempt 2 (sleep
min(2 ^ 2, 30)), success on attempt 3, over a two-key pool. -/
theorem C10_witness :
    (llmCall
        (fun n => if n = 1 then .httpStatus 401
                  else if n = 2 then .httpStatus 429 else .ok "hi") 3
        { pool := ["k1", "k2"], pos := 0, failures := [] }).1.filterMap
        LLMEvent.sleepSeconds
      = expectedBackoffs
          (fun n => if n = 1 then .httpStatus 401
                    else if n = 2 then .httpStatus 429 else .ok "hi") 1 3 :=
  (C10_llm_backoff_per_error_class
      (fun n => if n = 1 then .httpStatus 401
                else if n = 2 then .httpStatus 429 else .ok "hi") 3
      { pool := ["k1", "k2"], pos := 0, failures := [] } (by decide)).1
